import Mathlib

/-!
Shallow embedding of `src/truenas_authenticator/authenticator.py` (truenas_pypam).

The module under verification is a per-session PAM orchestrator:
`UserPamAuthenticator` runs the blocking `pam.authenticate()` conversation on a
worker thread and exposes it to the caller as discrete `auth_init` /
`auth_continue` steps, followed by `account_management`, `open_session`,
`login`, `logout`, `close_session`, `end`.

Embedding conventions:
* The `truenas_pypam` C extension (context creation, `authenticate`,
  `acct_mgmt`, `open_session`, `close_session`, env handling) is external to
  the repository; its calls are oracles: each operation takes the backend
  outcome as an `Except PamException Unit` (or `Except PamException PamContext`)
  argument.
* The worker thread's interleaving with the polling loop of
  `_wait_for_auth_result` is an oracle trace: a `List WaitIter`, one entry per
  iteration of the `while not done_event.is_set()` loop, recording what the
  orchestrator observed at that iteration (done flag, monotonic-clock elapsed
  time since the call's `start_time`, and the `output_queue.get(timeout=0.1)`
  outcome), plus a `ThreadResult` giving the worker's terminal outcome
  (`thread_state.exception` / `thread_state.pam_context`) read after the join.
* Wall-clock instants are rationals (seconds).
* Python exceptions raised by an orchestrator method are `Except.error` values
  of type `AuthError`; returned `AuthenticatorResponse` values are `Except.ok`.
  In every raising path of the source, the raise happens before any mutation of
  the object, so a raised call leaves the authenticator unchanged.
* A polling call whose oracle trace is exhausted before the loop exits is
  modelled as `Option.none` ("the call has not returned yet"); such a call
  contributes no successor state.
-/

/-- Stage of PAM session / conversation (`class AuthenticatorStage(enum.StrEnum)`). -/
inductive AuthenticatorStage where
  | START
  | AUTH
  | OPEN_SESSION
  | CLOSE_SESSION
  | LOGIN
  | LOGOUT
deriving DecidableEq, Repr

/-- PAM result codes used by the orchestrator (from the `truenas_pypam`
extension's `PAMCode` enum; an opaque fixed taxonomy). -/
inductive PAMCode where
  | PAM_SUCCESS
  | PAM_CONV_AGAIN
  | PAM_SYSTEM_ERR
  | PAM_AUTH_ERR
  | PAM_USER_UNKNOWN
  | PAM_PERM_DENIED
  | PAM_ACCT_EXPIRED
  | PAM_AUTHTOK_EXPIRED
  | PAM_CRED_INSUFFICIENT
  | PAM_MAXTRIES
deriving DecidableEq, Repr

/-- Conversation message styles (from the `truenas_pypam` extension's
`MSGStyle` enum). -/
inductive MSGStyle where
  | PAM_PROMPT_ECHO_OFF
  | PAM_PROMPT_ECHO_ON
  | PAM_ERROR_MSG
  | PAM_TEXT_INFO
deriving DecidableEq, Repr

/-- One conversation prompt: style tag plus message text. -/
structure PamMessage where
  msg_style : MSGStyle
  msg : String
deriving DecidableEq, Repr

/-- Exception coming out of a backend call: either a structured
`truenas_pypam.PAMError` (machine-readable code + text) or any other Python
exception (only its string form is observable). -/
inductive PamException where
  | pamError (code : PAMCode) (msg : String)
  | other (msg : String)
deriving DecidableEq, Repr

/-- Opaque PAM context handle returned by `truenas_pypam.get_context`. -/
structure PamContext where
  ctx_id : Nat
deriving DecidableEq, Repr

/-- Mirrors `@dataclass AuthenticatorState`: default values as in the source;
`login_at` is a wall-clock timestamp (seconds). -/
structure AuthenticatorState where
  service : String := "login"
  stage : AuthenticatorStage := .START
  otpw_possible : Bool := true
  twofactor_possible : Bool := true
  login_at : Option ℚ := none
  passwd : Option (List (String × String)) := none
  messages : Option (List PamMessage) := none
deriving DecidableEq, Repr

/-- The `reason` field of `AuthenticatorResponse` is `Any` in the source:
`None`, a human-readable string, or (for `PAM_CONV_AGAIN`) the batch of
conversation messages. -/
inductive ResponseReason where
  | noReason
  | text (s : String)
  | conv (msgs : List PamMessage)
deriving DecidableEq, Repr

/-- The `user_info` dict built on successful authentication:
`{'pw_name': username, 'account_attributes': []}`. -/
structure UserInfo where
  pw_name : String
  account_attributes : List String
deriving DecidableEq, Repr

/-- Mirrors `@dataclass AuthenticatorResponse`. -/
structure AuthenticatorResponse where
  stage : AuthenticatorStage
  code : PAMCode
  reason : ResponseReason
  user_info : Option UserInfo := none
deriving DecidableEq, Repr

/-- Mirrors `@dataclass ConversationThreadState` (the bridge context shared
with the worker). Fields written by the worker (`exception`, `pam_context`)
are delivered through the `ThreadResult` oracle instead of being stored here.
`input_queue` holds the response batches put by `auth_continue` (queue traffic
towards the worker); `last_conv_messages` records the most recent prompt batch
taken off `output_queue` and surfaced to the caller as `PAM_CONV_AGAIN`. -/
structure ConversationThreadState where
  input_queue : List (List (Option String)) := []
  last_conv_messages : Option (List PamMessage) := none
  service_name : String := "login"
  user : Option String := none
  rhost : Option String := none
  ruser : Option String := none
  fail_delay : Nat := 0
  pam_env : List (String × String) := []
deriving DecidableEq, Repr

/-- Terminal outcome of `_auth_thread_worker`: on success the PAM context is
stored in `thread_state.pam_context`; on any exception it is stored in
`thread_state.exception`. -/
inductive ThreadResult where
  | success (ctx : PamContext)
  | failure (e : PamException)
deriving DecidableEq, Repr

/-- One iteration of the polling loop in `_wait_for_auth_result`, as observed
by the orchestrating thread: `done` is `done_event.is_set()` at the top of the
loop, `elapsed` is `time.monotonic() - start_time` at the timeout check, and
`poll` is the outcome of `output_queue.get(timeout=0.1)` (`none` =
`queue.Empty`). -/
structure WaitIter where
  done : Bool
  elapsed : ℚ
  poll : Option (List PamMessage)
deriving DecidableEq, Repr

/-- How one call to `_wait_for_auth_result` exits its polling loop. -/
inductive WaitStep where
  | completed
  | timedOut
  | convAgain (msgs : List PamMessage)
  | hung
deriving DecidableEq, Repr

/-- The polling loop of `_wait_for_auth_result`, iteration by iteration:
exit when `done_event` is set; otherwise time out when the monotonic clock has
advanced past `authentication_timeout` since this call started; otherwise poll
the output queue and either surface a prompt batch or loop. An exhausted trace
means the call has not exited yet (`hung`). -/
def waitLoop (timeout : ℚ) : List WaitIter → WaitStep
  | [] => .hung
  | it :: rest =>
    if it.done then .completed
    else if it.elapsed > timeout then .timedOut
    else
      match it.poll with
      | some msgs => .convAgain msgs
      | none => waitLoop timeout rest

/-- Elapsed time (since the call's `start_time`) at the iteration where the
polling loop exits; 0 if the trace is exhausted. Used to reason about how long
one `auth_init`/`auth_continue` call spends polling. -/
def waitPollTime (timeout : ℚ) : List WaitIter → ℚ
  | [] => 0
  | it :: rest =>
    if it.done then it.elapsed
    else if it.elapsed > timeout then it.elapsed
    else
      match it.poll with
      | some _ => it.elapsed
      | none => waitPollTime timeout rest

/-- Python exceptions raised (not returned) by the orchestrator's methods. -/
inductive AuthError where
  /-- `check_stage`: "unexpected authenticator run state" (actual, expected). -/
  | runtimeWrongStage (actual expected : AuthenticatorStage)
  /-- `auth_init`: "Authentication already in progress". -/
  | runtimeAlreadyInProgress
  /-- `auth_continue`: "Not in AUTH stage (current: ...)". -/
  | runtimeNotInAuthStage (actual : AuthenticatorStage)
  /-- `auth_continue`: "No authentication in progress". -/
  | runtimeNoAuthInProgress
  /-- `account_management`/`open_session`/`close_session`: "No PAM context available". -/
  | runtimeNoPamContext
  /-- a backend exception that is not a `PAMError` propagates uncaught through
  `acct_mgmt`/`open_session`/`close_session` wrappers; in `SimpleAuthenticator`
  a `get_context`/`set_env` failure of any kind propagates. -/
  | uncaught (e : PamException)
  /-- `SimpleAuthenticator.auth_continue` raises `NotImplementedError`. -/
  | notImplementedErr
deriving DecidableEq, Repr

/-- Mirrors `UserPamAuthenticator.__init__` state: constructor arguments plus
`state`, `ctx`, `_auth_thread` (presence only), `_thread_state`. -/
structure UserPamAuthenticator where
  username : String
  authentication_timeout : ℚ := 10
  rhost : Option String := none
  ruser : Option String := none
  fail_delay : Option Nat := none
  pam_env : List (String × String) := []
  state : AuthenticatorState
  ctx : Option PamContext := none
  auth_thread : Bool := false
  thread_state : Option ConversationThreadState := none
deriving DecidableEq, Repr

/-- `UserPamAuthenticator(username=..., service=..., ...)`. -/
def mkUserPamAuthenticator (username : String) (service : String := "login")
    (authentication_timeout : ℚ := 10) (rhost : Option String := none)
    (ruser : Option String := none) (fail_delay : Option Nat := none)
    (pam_env : List (String × String) := []) : UserPamAuthenticator :=
  { username := username
    authentication_timeout := authentication_timeout
    rhost := rhost
    ruser := ruser
    fail_delay := fail_delay
    pam_env := pam_env
    state := { service := service }
    ctx := none
    auth_thread := false
    thread_state := none }

namespace UserPamAuthenticator

/-- `check_stage`: raise `RuntimeError` unless `state.stage is expected`. -/
def check_stage (a : UserPamAuthenticator) (expected : AuthenticatorStage) :
    Except AuthError Unit :=
  if a.state.stage ≠ expected then
    .error (.runtimeWrongStage a.state.stage expected)
  else
    .ok ()

/-- `end`: cancel any ongoing authentication (set `done_event`, join with a
2-second grace period, shut the queues down, drop the context slot) and reset
to a fresh `AuthenticatorState` keeping only the service name. Named `end_`
because `end` is a Lean keyword. Total: the source's `end()` never raises. -/
def end_ (a : UserPamAuthenticator) : UserPamAuthenticator :=
  { a with
    state := { service := a.state.service }
    ctx := none
    thread_state := none
    auth_thread := false }

/-- The f-string `"Authentication timeout after {timeout} seconds"`. -/
def timeoutReason (timeout : ℚ) : ResponseReason :=
  .text ("Authentication timeout after " ++ toString timeout ++ " seconds")

/-- `_wait_for_auth_result`: poll until the worker completes or sends a
conversation request. On timeout: `self.end()` and a `PAM_SYSTEM_ERR`
response. On a prompt batch: a `PAM_CONV_AGAIN` response (attempt still
outstanding). On completion: join, then either translate the stored exception
(structured `PAMError` verbatim, anything else as `PAM_SYSTEM_ERR`) and
`self.end()`, or store the PAM context, move to stage `LOGIN` and return
`PAM_SUCCESS` with the user-info payload. -/
def wait_for_auth_result (a : UserPamAuthenticator) (trace : List WaitIter)
    (tres : ThreadResult) : Option (UserPamAuthenticator × AuthenticatorResponse) :=
  match waitLoop a.authentication_timeout trace with
  | .hung => none
  | .timedOut =>
      some (a.end_,
        { stage := .AUTH
          code := .PAM_SYSTEM_ERR
          reason := timeoutReason a.authentication_timeout })
  | .convAgain msgs =>
      some ({ a with thread_state :=
                a.thread_state.map (fun ts => { ts with last_conv_messages := some msgs }) },
        { stage := .AUTH, code := .PAM_CONV_AGAIN, reason := .conv msgs })
  | .completed =>
      match tres with
      | .failure e =>
          let code := match e with
            | .pamError c _ => c
            | .other _ => .PAM_SYSTEM_ERR
          let reason := match e with
            | .pamError _ m => m
            | .other m => m
          some (a.end_, { stage := .AUTH, code := code, reason := .text reason })
      | .success ctx =>
          some ({ a with ctx := some ctx, state := { a.state with stage := .LOGIN } },
            { stage := .AUTH
              code := .PAM_SUCCESS
              reason := .noReason
              user_info := some { pw_name := a.username, account_attributes := [] } })

/-- `auth_init`: refuse if an attempt is already outstanding, require stage
`START`, build a fresh `ConversationThreadState`, start the worker thread,
move to stage `AUTH`, and wait for the first result. -/
def auth_init (a : UserPamAuthenticator) (trace : List WaitIter) (tres : ThreadResult) :
    Except AuthError (Option (UserPamAuthenticator × AuthenticatorResponse)) :=
  if a.thread_state.isSome || a.auth_thread then
    .error .runtimeAlreadyInProgress
  else
    match a.check_stage .START with
    | .error e => .error e
    | .ok _ =>
      let ts : ConversationThreadState :=
        { service_name := a.state.service
          user := some a.username
          rhost := a.rhost
          ruser := a.ruser
          fail_delay := a.fail_delay.getD 0
          pam_env := a.pam_env }
      let a1 := { a with
        thread_state := some ts
        auth_thread := true
        state := { a.state with stage := .AUTH } }
      .ok (wait_for_auth_result a1 trace tres)

/-- `auth_continue`: require stage `AUTH` and an outstanding attempt, put the
caller's responses on the input queue (verbatim, no validation), then wait. -/
def auth_continue (a : UserPamAuthenticator) (responses : List (Option String))
    (trace : List WaitIter) (tres : ThreadResult) :
    Except AuthError (Option (UserPamAuthenticator × AuthenticatorResponse)) :=
  if a.state.stage ≠ .AUTH then
    .error (.runtimeNotInAuthStage a.state.stage)
  else if a.thread_state.isNone || !a.auth_thread then
    .error .runtimeNoAuthInProgress
  else
    let a1 := { a with thread_state :=
      a.thread_state.map (fun ts => { ts with input_queue := ts.input_queue ++ [responses] }) }
    .ok (wait_for_auth_result a1 trace tres)

/-- `account_management`: require stage `LOGIN` and a PAM context; call
`ctx.acct_mgmt()`, catching only `PAMError` (translated to a response tagged
`AUTH`); any other exception propagates. Stage is unchanged. -/
def account_management (a : UserPamAuthenticator) (acctRes : Except PamException Unit) :
    Except AuthError (UserPamAuthenticator × AuthenticatorResponse) :=
  match a.check_stage .LOGIN with
  | .error e => .error e
  | .ok _ =>
    if a.ctx.isNone then .error .runtimeNoPamContext
    else
      match acctRes with
      | .ok _ => .ok (a, { stage := .AUTH, code := .PAM_SUCCESS, reason := .noReason })
      | .error (.pamError c m) => .ok (a, { stage := .AUTH, code := c, reason := .text m })
      | .error (.other m) => .error (.uncaught (.other m))

/-- `open_session`: require stage `LOGIN` and a PAM context; call
`ctx.open_session()`, catching only `PAMError`; response tagged `OPEN_SESSION`. -/
def open_session (a : UserPamAuthenticator) (openRes : Except PamException Unit) :
    Except AuthError (UserPamAuthenticator × AuthenticatorResponse) :=
  match a.check_stage .LOGIN with
  | .error e => .error e
  | .ok _ =>
    if a.ctx.isNone then .error .runtimeNoPamContext
    else
      match openRes with
      | .ok _ => .ok (a, { stage := .OPEN_SESSION, code := .PAM_SUCCESS, reason := .noReason })
      | .error (.pamError c m) =>
          .ok (a, { stage := .OPEN_SESSION, code := c, reason := .text m })
      | .error (.other m) => .error (.uncaught (.other m))

/-- `close_session`: require stage `LOGOUT` and a PAM context; call
`ctx.close_session()`, catching only `PAMError`; response tagged `CLOSE_SESSION`. -/
def close_session (a : UserPamAuthenticator) (closeRes : Except PamException Unit) :
    Except AuthError (UserPamAuthenticator × AuthenticatorResponse) :=
  match a.check_stage .LOGOUT with
  | .error e => .error e
  | .ok _ =>
    if a.ctx.isNone then .error .runtimeNoPamContext
    else
      match closeRes with
      | .ok _ => .ok (a, { stage := .CLOSE_SESSION, code := .PAM_SUCCESS, reason := .noReason })
      | .error (.pamError c m) =>
          .ok (a, { stage := .CLOSE_SESSION, code := c, reason := .text m })
      | .error (.other m) => .error (.uncaught (.other m))

/-- `login`: require stage `LOGIN`; `open_session()`; on non-success response
`end()` and return it unchanged; on success record `login_at = now`, move to
stage `LOGOUT` and return a `LOGIN`-tagged success. `now` is the wall clock
(`datetime.now(UTC)`). -/
def login (a : UserPamAuthenticator) (now : ℚ) (openRes : Except PamException Unit) :
    Except AuthError (UserPamAuthenticator × AuthenticatorResponse) :=
  match a.check_stage .LOGIN with
  | .error e => .error e
  | .ok _ =>
    match a.open_session openRes with
    | .error e => .error e
    | .ok (a1, resp) =>
      if resp.code ≠ .PAM_SUCCESS then
        .ok (a1.end_, resp)
      else
        .ok ({ a1 with state := { a1.state with login_at := some now, stage := .LOGOUT } },
          { stage := .LOGIN, code := .PAM_SUCCESS, reason := .noReason })

/-- `logout`: require stage `LOGOUT`; `close_session()` then unconditionally
`end()`, returning a `LOGOUT`-tagged response carrying the close outcome. -/
def logout (a : UserPamAuthenticator) (closeRes : Except PamException Unit) :
    Except AuthError (UserPamAuthenticator × AuthenticatorResponse) :=
  match a.check_stage .LOGOUT with
  | .error e => .error e
  | .ok _ =>
    match a.close_session closeRes with
    | .error e => .error e
    | .ok (a1, resp) =>
      .ok (a1.end_, { stage := .LOGOUT, code := resp.code, reason := resp.reason })

/-- The read-only `login_at` property. -/
def login_at (a : UserPamAuthenticator) : Option ℚ :=
  a.state.login_at

end UserPamAuthenticator

/-- `SimpleAuthenticator`: subclass adding a stored plaintext `password`
(popped from kwargs; `None` once consumed). -/
structure SimpleAuthenticator extends UserPamAuthenticator where
  password : Option String := none
deriving DecidableEq, Repr

namespace SimpleAuthenticator

/-- `SimpleAuthenticator.auth_init`: require stage `START`; create a context
(uncaught on failure), set PAM env vars (uncaught on failure), then
`ctx.authenticate()` inside `try ... finally: self.password = None`: any
exception is translated to a response (`PAMError` verbatim, otherwise
`PAM_SYSTEM_ERR`); on success store the context, move to stage `LOGIN` and
return success with the user-info payload. In both the success and every
`authenticate` failure path the `finally` clears the stored password before
the method returns. A `get_context`/`set_env` failure happens before the
`try`, so it propagates with the password still set. -/
def auth_init (s : SimpleAuthenticator)
    (getCtxRes : Except PamException PamContext)
    (envRes : Except PamException Unit)
    (authRes : Except PamException Unit) :
    Except AuthError (SimpleAuthenticator × AuthenticatorResponse) :=
  match s.check_stage .START with
  | .error e => .error e
  | .ok _ =>
    match getCtxRes with
    | .error e => .error (.uncaught e)
    | .ok ctx =>
      match (if s.pam_env ≠ [] then envRes else .ok ()) with
      | .error e => .error (.uncaught e)
      | .ok _ =>
        match authRes with
        | .error exc =>
            let code := match exc with
              | .pamError c _ => c
              | .other _ => .PAM_SYSTEM_ERR
            let reason := match exc with
              | .pamError _ m => m
              | .other m => m
            .ok ({ s with password := none },
              { stage := .AUTH, code := code, reason := .text reason })
        | .ok _ =>
            .ok ({ s with
                    password := none
                    ctx := some ctx
                    state := { s.state with stage := .LOGIN } },
              { stage := .AUTH
                code := .PAM_SUCCESS
                reason := .noReason
                user_info := some { pw_name := s.username, account_attributes := [] } })

/-- `SimpleAuthenticator.auth_continue` raises `NotImplementedError`. -/
def auth_continue (_s : SimpleAuthenticator) :
    Except AuthError (SimpleAuthenticator × AuthenticatorResponse) :=
  .error .notImplementedErr

end SimpleAuthenticator

/-- One public operation on a `UserPamAuthenticator`, bundled with the oracle
data (worker trace / backend outcomes / wall clock) consumed by that call. -/
inductive Op where
  | opAuthInit (trace : List WaitIter) (tres : ThreadResult)
  | opAuthContinue (responses : List (Option String)) (trace : List WaitIter)
      (tres : ThreadResult)
  | opAcctMgmt (r : Except PamException Unit)
  | opOpenSession (r : Except PamException Unit)
  | opCloseSession (r : Except PamException Unit)
  | opLogin (now : ℚ) (r : Except PamException Unit)
  | opLogout (r : Except PamException Unit)
  | opEnd

/-- Successor state of one public call. A raising call leaves the object
unchanged (every raise in the source happens before any mutation); a polling
call whose trace is exhausted has no successor yet (`none`). -/
def stepOp (a : UserPamAuthenticator) : Op → Option UserPamAuthenticator
  | .opAuthInit tr tres =>
      match a.auth_init tr tres with
      | .error _ => some a
      | .ok none => none
      | .ok (some p) => some p.1
  | .opAuthContinue rs tr tres =>
      match a.auth_continue rs tr tres with
      | .error _ => some a
      | .ok none => none
      | .ok (some p) => some p.1
  | .opAcctMgmt r =>
      match a.account_management r with
      | .error _ => some a
      | .ok p => some p.1
  | .opOpenSession r =>
      match a.open_session r with
      | .error _ => some a
      | .ok p => some p.1
  | .opCloseSession r =>
      match a.close_session r with
      | .error _ => some a
      | .ok p => some p.1
  | .opLogin now r =>
      match a.login now r with
      | .error _ => some a
      | .ok p => some p.1
  | .opLogout r =>
      match a.logout r with
      | .error _ => some a
      | .ok p => some p.1
  | .opEnd => some a.end_

/-- States reachable from a freshly constructed authenticator by any sequence
of public operations (with any oracle outcomes). -/
inductive Reachable : UserPamAuthenticator → Prop
  | base (username service : String) (timeout : ℚ) (rhost ruser : Option String)
      (fail_delay : Option Nat) (pam_env : List (String × String)) :
      Reachable (mkUserPamAuthenticator username service timeout rhost ruser
        fail_delay pam_env)
  | step {a a' : UserPamAuthenticator} (op : Op) :
      Reachable a → stepOp a op = some a' → Reachable a'

/-- The durable stage values: `state.stage` only ever holds these four
(`OPEN_SESSION` / `CLOSE_SESSION` appear only as response tags). -/
def durableStage : AuthenticatorStage → Bool
  | .START => true
  | .AUTH => true
  | .LOGIN => true
  | .LOGOUT => true
  | _ => false

/-- Position of a durable stage in the linear lifecycle order
`START → AUTH → LOGIN → LOGOUT`. -/
def stageIdx : AuthenticatorStage → Nat
  | .START => 0
  | .AUTH => 1
  | .LOGIN => 2
  | .LOGOUT => 3
  | .OPEN_SESSION => 4
  | .CLOSE_SESSION => 5

/-- State invariant maintained by every public operation: the stage is one of
the four durable values, and in stage `AUTH` an attempt is outstanding
(`_thread_state` and `_auth_thread` both set). -/
def StageInv (a : UserPamAuthenticator) : Prop :=
  durableStage a.state.stage = true ∧
    (a.state.stage = .AUTH → a.thread_state.isSome ∧ a.auth_thread = true)

namespace UserPamAuthenticator

lemma end_stage (a : UserPamAuthenticator) : a.end_.state.stage = .START := rfl

/-- Case analysis on the state produced by one `_wait_for_auth_result` call:
either the attempt was torn down (`end()`), or the state is unchanged apart
from thread-state bookkeeping (the `CONV_AGAIN` case), or authentication
succeeded (stage `LOGIN`, context stored, worker fields kept). -/
lemma wait_result_cases {a : UserPamAuthenticator} {tr : List WaitIter}
    {tres : ThreadResult} {p : UserPamAuthenticator × AuthenticatorResponse}
    (h : a.wait_for_auth_result tr tres = some p) :
    p.1 = a.end_ ∨
    (p.1.state = a.state ∧ p.1.thread_state.isSome = a.thread_state.isSome ∧
      p.1.auth_thread = a.auth_thread ∧ p.1.ctx = a.ctx) ∨
    (p.1.state.stage = .LOGIN ∧ p.1.thread_state = a.thread_state ∧
      p.1.auth_thread = a.auth_thread ∧ p.1.ctx.isSome) := by
  unfold wait_for_auth_result at h
  rcases hw : waitLoop a.authentication_timeout tr with _ | _ | msgs | _ <;>
    rw [hw] at h
  · rcases tres with ctx | e
    · right; right
      simp only [Option.some_inj] at h
      subst h
      simp
    · left
      simp only [Option.some_inj] at h
      subst h
      rfl
  · left
    simp only [Option.some_inj] at h
    subst h
    rfl
  · right; left
    simp only [Option.some_inj] at h
    subst h
    simp
  · exact absurd h (by simp)

end UserPamAuthenticator


namespace UserPamAuthenticator

/-- A passing `check_stage` means the stage was the expected one. -/
lemma check_stage_eq_ok {a : UserPamAuthenticator} {expected : AuthenticatorStage}
    {u : Unit} (h : a.check_stage expected = .ok u) : a.state.stage = expected := by
  unfold check_stage at h
  split at h
  · exact absurd h (by simp)
  next hst => push_neg at hst; exact hst

/-- `check_stage` passes when the stage matches. -/
lemma check_stage_of_stage {a : UserPamAuthenticator} {expected : AuthenticatorStage}
    (h : a.state.stage = expected) : a.check_stage expected = .ok () := by
  unfold check_stage
  simp [h]

/-- An `auth_init` call that returns (rather than raises or hangs) started
from `START` with no outstanding attempt, and ends in `START` (teardown),
`AUTH` (conversation outstanding) or `LOGIN` (immediate success). -/
lemma auth_init_ok_cases {a a' : UserPamAuthenticator} {tr : List WaitIter}
    {tres : ThreadResult} {r : AuthenticatorResponse}
    (h : a.auth_init tr tres = .ok (some (a', r))) :
    a.state.stage = .START ∧ a.thread_state.isSome = false ∧ a.auth_thread = false ∧
    (a'.state.stage = .START ∨
     (a'.state.stage = .AUTH ∧ a'.thread_state.isSome = true ∧ a'.auth_thread = true) ∨
     (a'.state.stage = .LOGIN ∧ a'.thread_state.isSome = true ∧ a'.ctx.isSome = true)) := by
  unfold auth_init at h
  split at h
  · exact absurd h (by simp)
  next hts =>
    simp only [Bool.or_eq_true, not_or, Bool.not_eq_true] at hts
    split at h
    next e heq => exact absurd h (by simp)
    next u heq =>
      refine ⟨check_stage_eq_ok heq, hts.1, hts.2, ?_⟩
      simp only [Except.ok.injEq] at h
      rcases wait_result_cases h with hw | hw | hw <;> dsimp only at hw
      · left; rw [hw]; rfl
      · right; left
        refine ⟨?_, ?_, ?_⟩
        · rw [hw.1]
        · rw [hw.2.1]; rfl
        · rw [hw.2.2.1]
      · right; right
        refine ⟨hw.1, ?_, hw.2.2.2⟩
        rw [hw.2.1]; rfl

/-- An `auth_continue` call that returns started from `AUTH`, and ends in
`START` (failure teardown), `AUTH` (another conversation round) or `LOGIN`
(success). -/
lemma auth_continue_ok_cases {a a' : UserPamAuthenticator}
    {rs : List (Option String)} {tr : List WaitIter} {tres : ThreadResult}
    {r : AuthenticatorResponse}
    (h : a.auth_continue rs tr tres = .ok (some (a', r))) :
    a.state.stage = .AUTH ∧
    (a'.state.stage = .START ∨
     (a'.state.stage = .AUTH ∧ a'.thread_state.isSome = a.thread_state.isSome ∧
       a'.auth_thread = a.auth_thread) ∨
     (a'.state.stage = .LOGIN ∧ a'.thread_state.isSome = a.thread_state.isSome ∧
       a'.ctx.isSome = true)) := by
  unfold auth_continue at h
  split at h
  · exact absurd h (by simp)
  next hst =>
    push_neg at hst
    refine ⟨hst, ?_⟩
    split at h
    · exact absurd h (by simp)
    next =>
      simp only [Except.ok.injEq] at h
      rcases wait_result_cases h with hw | hw | hw <;> dsimp only at hw
      · left; rw [hw]; rfl
      · right; left
        refine ⟨?_, ?_, ?_⟩
        · rw [hw.1]; exact hst
        · rw [hw.2.1]; simp
        · rw [hw.2.2.1]
      · right; right
        refine ⟨hw.1, ?_, hw.2.2.2⟩
        rw [hw.2.1]; simp

/-- `account_management` never mutates the authenticator. -/
lemma account_management_ok_state {a a' : UserPamAuthenticator}
    {res : Except PamException Unit} {r : AuthenticatorResponse}
    (h : a.account_management res = .ok (a', r)) : a' = a := by
  unfold account_management at h
  split at h
  · exact absurd h (by simp)
  · split at h
    · exact absurd h (by simp)
    · split at h <;> simp_all

/-- `open_session` never mutates the authenticator. -/
lemma open_session_ok_state {a a' : UserPamAuthenticator}
    {res : Except PamException Unit} {r : AuthenticatorResponse}
    (h : a.open_session res = .ok (a', r)) : a' = a := by
  unfold open_session at h
  split at h
  · exact absurd h (by simp)
  · split at h
    · exact absurd h (by simp)
    · split at h <;> simp_all

/-- `close_session` never mutates the authenticator. -/
lemma close_session_ok_state {a a' : UserPamAuthenticator}
    {res : Except PamException Unit} {r : AuthenticatorResponse}
    (h : a.close_session res = .ok (a', r)) : a' = a := by
  unfold close_session at h
  split at h
  · exact absurd h (by simp)
  · split at h
    · exact absurd h (by simp)
    · split at h <;> simp_all

/-- A `login` call that returns started from `LOGIN` and ends in `START`
(open failure, torn down) or `LOGOUT` (logged in). -/
lemma login_ok_cases {a a' : UserPamAuthenticator} {now : ℚ}
    {res : Except PamException Unit} {r : AuthenticatorResponse}
    (h : a.login now res = .ok (a', r)) :
    a.state.stage = .LOGIN ∧ (a'.state.stage = .START ∨ a'.state.stage = .LOGOUT) := by
  unfold login at h
  split at h
  · exact absurd h (by simp)
  next u heq =>
    refine ⟨check_stage_eq_ok heq, ?_⟩
    split at h
    · exact absurd h (by simp)
    next a1 resp heq2 =>
      split at h
      · simp only [Except.ok.injEq, Prod.mk.injEq] at h
        left; rw [← h.1]; rfl
      · simp only [Except.ok.injEq, Prod.mk.injEq] at h
        right; rw [← h.1]

/-- A `logout` call that returns started from `LOGOUT` and ends in `START`. -/
lemma logout_ok_cases {a a' : UserPamAuthenticator}
    {res : Except PamException Unit} {r : AuthenticatorResponse}
    (h : a.logout res = .ok (a', r)) :
    a.state.stage = .LOGOUT ∧ a'.state.stage = .START := by
  unfold logout at h
  split at h
  · exact absurd h (by simp)
  next u heq =>
    refine ⟨check_stage_eq_ok heq, ?_⟩
    split at h
    · exact absurd h (by simp)
    next a1 resp heq2 =>
      simp only [Except.ok.injEq, Prod.mk.injEq] at h
      rw [← h.1]; rfl

end UserPamAuthenticator

open UserPamAuthenticator in
/-- One public operation preserves `StageInv` and moves the stage forward in
the lifecycle order or resets it to `START`. -/
lemma stepOp_spec {a a' : UserPamAuthenticator} {op : Op} (hInv : StageInv a)
    (h : stepOp a op = some a') :
    StageInv a' ∧
      (stageIdx a.state.stage ≤ stageIdx a'.state.stage ∨ a'.state.stage = .START) := by
  cases op with
  | opAuthInit tr tres =>
      simp only [stepOp] at h
      split at h
      · simp only [Option.some_inj] at h; subst h; exact ⟨hInv, Or.inl le_rfl⟩
      · exact absurd h (by simp)
      next p heq =>
        simp only [Option.some_inj] at h; subst h
        obtain ⟨hst, _, _, hcases⟩ := auth_init_ok_cases heq
        rcases hcases with hc | hc | hc
        · exact ⟨⟨by rw [hc]; rfl, by rw [hc]; intro hh; cases hh⟩, Or.inr hc⟩
        · refine ⟨⟨by rw [hc.1]; rfl, fun _ => ⟨hc.2.1, hc.2.2⟩⟩, Or.inl ?_⟩
          rw [hst, hc.1]
          decide
        · refine ⟨⟨by rw [hc.1]; rfl, by rw [hc.1]; intro hh; cases hh⟩, Or.inl ?_⟩
          rw [hst, hc.1]
          decide
  | opAuthContinue rs tr tres =>
      simp only [stepOp] at h
      split at h
      · simp only [Option.some_inj] at h; subst h; exact ⟨hInv, Or.inl le_rfl⟩
      · exact absurd h (by simp)
      next p heq =>
        simp only [Option.some_inj] at h; subst h
        obtain ⟨hst, hcases⟩ := auth_continue_ok_cases heq
        rcases hcases with hc | hc | hc
        · exact ⟨⟨by rw [hc]; rfl, by rw [hc]; intro hh; cases hh⟩, Or.inr hc⟩
        · refine ⟨⟨by rw [hc.1]; rfl, fun _ => ?_⟩, Or.inl ?_⟩
          · obtain ⟨h1, h2⟩ := hInv.2 hst
            exact ⟨by rw [hc.2.1, h1], by rw [hc.2.2, h2]⟩
          · rw [hst, hc.1]
        · refine ⟨⟨by rw [hc.1]; rfl, by rw [hc.1]; intro hh; cases hh⟩, Or.inl ?_⟩
          rw [hst, hc.1]
          decide
  | opAcctMgmt r =>
      simp only [stepOp] at h
      split at h
      · simp only [Option.some_inj] at h; subst h; exact ⟨hInv, Or.inl le_rfl⟩
      next p heq =>
        simp only [Option.some_inj] at h; subst h
        rw [account_management_ok_state heq]
        exact ⟨hInv, Or.inl le_rfl⟩
  | opOpenSession r =>
      simp only [stepOp] at h
      split at h
      · simp only [Option.some_inj] at h; subst h; exact ⟨hInv, Or.inl le_rfl⟩
      next p heq =>
        simp only [Option.some_inj] at h; subst h
        rw [open_session_ok_state heq]
        exact ⟨hInv, Or.inl le_rfl⟩
  | opCloseSession r =>
      simp only [stepOp] at h
      split at h
      · simp only [Option.some_inj] at h; subst h; exact ⟨hInv, Or.inl le_rfl⟩
      next p heq =>
        simp only [Option.some_inj] at h; subst h
        rw [close_session_ok_state heq]
        exact ⟨hInv, Or.inl le_rfl⟩
  | opLogin now r =>
      simp only [stepOp] at h
      split at h
      · simp only [Option.some_inj] at h; subst h; exact ⟨hInv, Or.inl le_rfl⟩
      next p heq =>
        simp only [Option.some_inj] at h; subst h
        obtain ⟨hst, hcases⟩ := login_ok_cases heq
        rcases hcases with hc | hc
        · exact ⟨⟨by rw [hc]; rfl, by rw [hc]; intro hh; cases hh⟩, Or.inr hc⟩
        · refine ⟨⟨by rw [hc]; rfl, by rw [hc]; intro hh; cases hh⟩, Or.inl ?_⟩
          rw [hst, hc]
          decide
  | opLogout r =>
      simp only [stepOp] at h
      split at h
      · simp only [Option.some_inj] at h; subst h; exact ⟨hInv, Or.inl le_rfl⟩
      next p heq =>
        simp only [Option.some_inj] at h; subst h
        obtain ⟨hst, hc⟩ := logout_ok_cases heq
        exact ⟨⟨by rw [hc]; rfl, by rw [hc]; intro hh; cases hh⟩, Or.inr hc⟩
  | opEnd =>
      simp only [stepOp] at h
      simp only [Option.some_inj] at h; subst h
      exact ⟨⟨rfl, by intro hh; cases hh⟩, Or.inr rfl⟩

/-- Every reachable authenticator satisfies the stage invariant. -/
lemma reachable_stageInv {a : UserPamAuthenticator} (h : Reachable a) : StageInv a := by
  induction h with
  | base u s t rh ru fd env =>
      exact ⟨rfl, by intro hh; cases hh⟩
  | step op _ hstep ih => exact (stepOp_spec ih hstep).1

/-- C1: for every sequence of public operations on a `UserPamAuthenticator`,
`state.stage` is always one of the legal durable stage values
(`START`/`AUTH`/`LOGIN`/`LOGOUT`, a subset of the five-value legal set the
spec names), and each operation either keeps the stage, advances it along the
linear order `START → AUTH → LOGIN → LOGOUT`, or resets it to `START` on
failure or teardown; no operation ever moves the stage backwards to any value
other than `START`. -/
theorem C1_stage_legal_and_linear (a : UserPamAuthenticator) (h : Reachable a) :
    durableStage a.state.stage = true ∧
    ∀ (op : Op) (a' : UserPamAuthenticator), stepOp a op = some a' →
      durableStage a'.state.stage = true ∧
      (stageIdx a.state.stage ≤ stageIdx a'.state.stage ∨ a'.state.stage = .START) :=
  ⟨(reachable_stageInv h).1, fun _ _ hstep =>
    let s := stepOp_spec (reachable_stageInv h) hstep
    ⟨s.1.1, s.2⟩⟩

/-- Witness for C1 at a concrete reachable state and operation: a fresh
authenticator for user `alice`, stepped by `end()`. -/
theorem C1_stage_legal_and_linear_witness :
    durableStage (mkUserPamAuthenticator "alice" "login" 10 none none none
        []).state.stage = true ∧
    (durableStage ((mkUserPamAuthenticator "alice" "login" 10 none none none
        []).end_).state.stage = true ∧
      (stageIdx (mkUserPamAuthenticator "alice" "login" 10 none none none
          []).state.stage ≤
        stageIdx ((mkUserPamAuthenticator "alice" "login" 10 none none none
          []).end_).state.stage ∨
        ((mkUserPamAuthenticator "alice" "login" 10 none none none
          []).end_).state.stage = .START)) :=
  ⟨(C1_stage_legal_and_linear _
      (Reachable.base "alice" "login" 10 none none none [])).1,
    (C1_stage_legal_and_linear _
      (Reachable.base "alice" "login" 10 none none none [])).2 .opEnd _ rfl⟩

namespace UserPamAuthenticator

/-- The fresh bridge context built by `auth_init`. -/
def initialThreadState (a : UserPamAuthenticator) : ConversationThreadState :=
  { service_name := a.state.service
    user := some a.username
    rhost := a.rhost
    ruser := a.ruser
    fail_delay := a.fail_delay.getD 0
    pam_env := a.pam_env }

/-- The state `auth_init` passes to `_wait_for_auth_result`: bridge context
created, worker started, stage moved to `AUTH`. -/
def authStarted (a : UserPamAuthenticator) : UserPamAuthenticator :=
  { a with
    thread_state := some a.initialThreadState
    auth_thread := true
    state := { a.state with stage := .AUTH } }

/-- The state `auth_continue` passes to `_wait_for_auth_result`: the response
batch appended (verbatim) to the input queue. -/
def responsesPushed (a : UserPamAuthenticator) (responses : List (Option String)) :
    UserPamAuthenticator :=
  { a with thread_state :=
      a.thread_state.map (fun ts => { ts with input_queue := ts.input_queue ++ [responses] }) }

/-- From `START` with no outstanding attempt, `auth_init` starts the worker
and waits. -/
lemma auth_init_start {a : UserPamAuthenticator} {tr : List WaitIter}
    {tres : ThreadResult} (hstage : a.state.stage = .START)
    (hts : a.thread_state = none) (hth : a.auth_thread = false) :
    a.auth_init tr tres = .ok (a.authStarted.wait_for_auth_result tr tres) := by
  unfold auth_init
  rw [if_neg (by simp [hts, hth]), check_stage_of_stage hstage]
  rfl

/-- In `AUTH` with an outstanding attempt, `auth_continue` pushes the
responses and waits. -/
lemma auth_continue_push {a : UserPamAuthenticator} {rs : List (Option String)}
    {tr : List WaitIter} {tres : ThreadResult} (hstage : a.state.stage = .AUTH)
    (hts : a.thread_state.isSome = true) (hth : a.auth_thread = true) :
    a.auth_continue rs tr tres = .ok ((a.responsesPushed rs).wait_for_auth_result tr tres) := by
  unfold auth_continue
  rw [if_neg (by simp [hstage]),
    if_neg (by simp [hth, Option.isNone_iff_eq_none]
               exact Option.isSome_iff_ne_none.mp hts)]
  rfl

/-- Wait exit on worker completion with a structured `PAMError`: the error is
translated verbatim and the attempt torn down. -/
lemma wait_completed_pamError {a : UserPamAuthenticator} {tr : List WaitIter}
    {c : PAMCode} {m : String}
    (hw : waitLoop a.authentication_timeout tr = .completed) :
    a.wait_for_auth_result tr (.failure (.pamError c m)) =
      some (a.end_, { stage := .AUTH, code := c, reason := .text m }) := by
  unfold wait_for_auth_result
  rw [hw]

/-- Wait exit on worker completion with a non-`PAMError` exception: collapsed
to `PAM_SYSTEM_ERR`, attempt torn down. -/
lemma wait_completed_other {a : UserPamAuthenticator} {tr : List WaitIter}
    {m : String} (hw : waitLoop a.authentication_timeout tr = .completed) :
    a.wait_for_auth_result tr (.failure (.other m)) =
      some (a.end_, { stage := .AUTH, code := .PAM_SYSTEM_ERR, reason := .text m }) := by
  unfold wait_for_auth_result
  rw [hw]

/-- Wait exit on successful worker completion: context stored, stage `LOGIN`,
success response with the user-info payload. -/
lemma wait_completed_success {a : UserPamAuthenticator} {tr : List WaitIter}
    {ctx : PamContext} (hw : waitLoop a.authentication_timeout tr = .completed) :
    a.wait_for_auth_result tr (.success ctx) =
      some ({ a with ctx := some ctx, state := { a.state with stage := .LOGIN } },
        { stage := .AUTH
          code := .PAM_SUCCESS
          reason := .noReason
          user_info := some { pw_name := a.username, account_attributes := [] } }) := by
  unfold wait_for_auth_result
  rw [hw]

/-- Wait exit on timeout: teardown plus a `PAM_SYSTEM_ERR` response. -/
lemma wait_timed_out {a : UserPamAuthenticator} {tr : List WaitIter}
    {tres : ThreadResult} (hw : waitLoop a.authentication_timeout tr = .timedOut) :
    a.wait_for_auth_result tr tres =
      some (a.end_,
        { stage := .AUTH
          code := .PAM_SYSTEM_ERR
          reason := timeoutReason a.authentication_timeout }) := by
  unfold wait_for_auth_result
  rw [hw]

/-- Wait exit on a conversation request: the prompt batch is surfaced as
`PAM_CONV_AGAIN` and the attempt stays outstanding. -/
lemma wait_conv_again {a : UserPamAuthenticator} {tr : List WaitIter}
    {tres : ThreadResult} {msgs : List PamMessage}
    (hw : waitLoop a.authentication_timeout tr = .convAgain msgs) :
    a.wait_for_auth_result tr tres =
      some ({ a with thread_state :=
          a.thread_state.map (fun ts => { ts with last_conv_messages := some msgs }) },
        { stage := .AUTH, code := .PAM_CONV_AGAIN, reason := .conv msgs }) := by
  unfold wait_for_auth_result
  rw [hw]

end UserPamAuthenticator

open UserPamAuthenticator in
/-- C2: when an authentication attempt fails (`auth_continue` whose worker
completes with a structured backend error, e.g. wrong credentials), the call
returns a `Response` carrying the backend's error code, the session stage is
reset to `START`, the account payload is absent, and the attempt is torn down:
a further `auth_continue` raises, so a new attempt must start over. -/
theorem C2_failed_auth_resets_to_start (a : UserPamAuthenticator)
    (responses : List (Option String)) (trace : List WaitIter)
    (c : PAMCode) (m : String)
    (hstage : a.state.stage = .AUTH)
    (hts : a.thread_state.isSome = true) (hth : a.auth_thread = true)
    (hw : waitLoop a.authentication_timeout trace = .completed) :
    ∃ (a' : UserPamAuthenticator) (r : AuthenticatorResponse),
      a.auth_continue responses trace (.failure (.pamError c m)) = .ok (some (a', r)) ∧
      r.code = c ∧ r.user_info = none ∧
      a'.state.stage = .START ∧ a'.state.passwd = none ∧
      a'.thread_state = none ∧ a'.auth_thread = false ∧
      ∀ (rs2 : List (Option String)) (tr2 : List WaitIter) (tres2 : ThreadResult),
        a'.auth_continue rs2 tr2 tres2 = .error (.runtimeNotInAuthStage .START) := by
  rw [auth_continue_push hstage hts hth, wait_completed_pamError]
  · exact ⟨_, _, rfl, rfl, rfl, rfl, rfl, rfl, rfl, fun rs2 tr2 tres2 => rfl⟩
  · exact hw

namespace UserPamAuthenticator

/-- `auth_init` with an attempt outstanding raises "Authentication already in
progress" (checked before the stage guard). -/
lemma auth_init_already {a : UserPamAuthenticator}
    (h : a.thread_state.isSome = true ∨ a.auth_thread = true) :
    ∀ (tr : List WaitIter) (tres : ThreadResult),
      a.auth_init tr tres = .error .runtimeAlreadyInProgress := by
  intro tr tres
  unfold auth_init
  rw [if_pos]
  rcases h with h | h <;> simp [h]

/-- `auth_init` in a wrong stage with no attempt outstanding raises the stage
error. -/
lemma auth_init_wrong_stage {a : UserPamAuthenticator}
    (hts : a.thread_state = none) (hth : a.auth_thread = false)
    (h : a.state.stage ≠ .START) :
    ∀ (tr : List WaitIter) (tres : ThreadResult),
      a.auth_init tr tres = .error (.runtimeWrongStage a.state.stage .START) := by
  intro tr tres
  unfold auth_init
  rw [if_neg (by simp [hts, hth])]
  unfold check_stage
  rw [if_pos h]

/-- `auth_continue` outside stage `AUTH` raises "Not in AUTH stage". -/
lemma auth_continue_not_auth {a : UserPamAuthenticator} (h : a.state.stage ≠ .AUTH) :
    ∀ (rs : List (Option String)) (tr : List WaitIter) (tres : ThreadResult),
      a.auth_continue rs tr tres = .error (.runtimeNotInAuthStage a.state.stage) := by
  intro rs tr tres
  unfold auth_continue
  rw [if_pos h]

/-- `account_management` outside stage `LOGIN` raises the stage error. -/
lemma account_management_wrong_stage {a : UserPamAuthenticator}
    {r : Except PamException Unit} (h : a.state.stage ≠ .LOGIN) :
    a.account_management r = .error (.runtimeWrongStage a.state.stage .LOGIN) := by
  unfold account_management check_stage
  rw [if_pos h]

/-- `open_session` outside stage `LOGIN` raises the stage error. -/
lemma open_session_wrong_stage {a : UserPamAuthenticator}
    {r : Except PamException Unit} (h : a.state.stage ≠ .LOGIN) :
    a.open_session r = .error (.runtimeWrongStage a.state.stage .LOGIN) := by
  unfold open_session check_stage
  rw [if_pos h]

/-- `close_session` outside stage `LOGOUT` raises the stage error. -/
lemma close_session_wrong_stage {a : UserPamAuthenticator}
    {r : Except PamException Unit} (h : a.state.stage ≠ .LOGOUT) :
    a.close_session r = .error (.runtimeWrongStage a.state.stage .LOGOUT) := by
  unfold close_session check_stage
  rw [if_pos h]

/-- `login` outside stage `LOGIN` raises the stage error. -/
lemma login_wrong_stage {a : UserPamAuthenticator} {now : ℚ}
    {r : Except PamException Unit} (h : a.state.stage ≠ .LOGIN) :
    a.login now r = .error (.runtimeWrongStage a.state.stage .LOGIN) := by
  unfold login check_stage
  rw [if_pos h]

/-- `logout` outside stage `LOGOUT` raises the stage error. -/
lemma logout_wrong_stage {a : UserPamAuthenticator}
    {r : Except PamException Unit} (h : a.state.stage ≠ .LOGOUT) :
    a.logout r = .error (.runtimeWrongStage a.state.stage .LOGOUT) := by
  unfold logout check_stage
  rw [if_pos h]

end UserPamAuthenticator

/-- A freshly constructed authenticator for user alice (stage `START`). -/
def aStart : UserPamAuthenticator :=
  mkUserPamAuthenticator "alice" "login" 10 none none none []

/-- An authenticator mid-attempt: stage `AUTH`, bridge context and worker
outstanding (the state reached by `auth_init` after a `CONV_AGAIN`). -/
def aAuth : UserPamAuthenticator :=
  { aStart with
    state := { service := "login", stage := .AUTH }
    auth_thread := true
    thread_state := some { } }

/-- An authenticated session: stage `LOGIN`, PAM context held. -/
def aLogin : UserPamAuthenticator :=
  { aStart with
    state := { service := "login", stage := .LOGIN }
    ctx := some ⟨0⟩ }

/-- A logged-in session: stage `LOGOUT`, PAM context held. -/
def aLogout : UserPamAuthenticator :=
  { aStart with
    state := { service := "login", stage := .LOGOUT, login_at := some 100 }
    ctx := some ⟨0⟩ }

/-- A trace whose first loop iteration observes the done event. -/
def trDone : List WaitIter := [⟨true, 0, none⟩]

/-- Witness for C2 at concrete inputs: a mid-attempt authenticator, a wrong
password, and a worker that completes with `PAM_AUTH_ERR`. -/
theorem C2_failed_auth_resets_to_start_witness :
    ∃ (a' : UserPamAuthenticator) (r : AuthenticatorResponse),
      aAuth.auth_continue [some "wrongpassword"] trDone
          (.failure (.pamError .PAM_AUTH_ERR "Authentication failure")) =
        .ok (some (a', r)) ∧
      r.code = .PAM_AUTH_ERR ∧ r.user_info = none ∧
      a'.state.stage = .START ∧ a'.state.passwd = none ∧
      a'.thread_state = none ∧ a'.auth_thread = false ∧
      ∀ (rs2 : List (Option String)) (tr2 : List WaitIter) (tres2 : ThreadResult),
        a'.auth_continue rs2 tr2 tres2 = .error (.runtimeNotInAuthStage .START) :=
  C2_failed_auth_resets_to_start aAuth [some "wrongpassword"] trDone
    .PAM_AUTH_ERR "Authentication failure" rfl rfl rfl rfl

open UserPamAuthenticator in
/-- C3: protocol misuse is raised as an exception, never returned as a
response: every lifecycle operation called in the wrong stage raises the stage
misuse error; `auth_continue` raises "not in AUTH stage" whenever the stage is
not `AUTH`, and (by the reachable-state invariant) whenever no attempt is
outstanding; and a second `auth_init` after one that returned without failure
(stage not reset to `START`) always raises "already in progress". -/
theorem C3_misuse_always_raises :
    (∀ (a : UserPamAuthenticator) (tr : List WaitIter) (tres : ThreadResult),
      a.thread_state = none → a.auth_thread = false → a.state.stage ≠ .START →
      a.auth_init tr tres = .error (.runtimeWrongStage a.state.stage .START)) ∧
    (∀ (a : UserPamAuthenticator) (r : Except PamException Unit),
      a.state.stage ≠ .LOGIN →
      a.account_management r = .error (.runtimeWrongStage a.state.stage .LOGIN)) ∧
    (∀ (a : UserPamAuthenticator) (r : Except PamException Unit),
      a.state.stage ≠ .LOGIN →
      a.open_session r = .error (.runtimeWrongStage a.state.stage .LOGIN)) ∧
    (∀ (a : UserPamAuthenticator) (r : Except PamException Unit),
      a.state.stage ≠ .LOGOUT →
      a.close_session r = .error (.runtimeWrongStage a.state.stage .LOGOUT)) ∧
    (∀ (a : UserPamAuthenticator) (now : ℚ) (r : Except PamException Unit),
      a.state.stage ≠ .LOGIN →
      a.login now r = .error (.runtimeWrongStage a.state.stage .LOGIN)) ∧
    (∀ (a : UserPamAuthenticator) (r : Except PamException Unit),
      a.state.stage ≠ .LOGOUT →
      a.logout r = .error (.runtimeWrongStage a.state.stage .LOGOUT)) ∧
    (∀ (a : UserPamAuthenticator) (rs : List (Option String)) (tr : List WaitIter)
      (tres : ThreadResult), a.state.stage ≠ .AUTH →
      a.auth_continue rs tr tres = .error (.runtimeNotInAuthStage a.state.stage)) ∧
    (∀ (a : UserPamAuthenticator), Reachable a → a.thread_state = none →
      ∀ (rs : List (Option String)) (tr : List WaitIter) (tres : ThreadResult),
        a.auth_continue rs tr tres = .error (.runtimeNotInAuthStage a.state.stage)) ∧
    (∀ (a a' : UserPamAuthenticator) (tr : List WaitIter) (tres : ThreadResult)
      (r : AuthenticatorResponse),
      a.auth_init tr tres = .ok (some (a', r)) → a'.state.stage ≠ .START →
      ∀ (tr2 : List WaitIter) (tres2 : ThreadResult),
        a'.auth_init tr2 tres2 = .error .runtimeAlreadyInProgress) := by
  refine ⟨?_, ?_, ?_, ?_, ?_, ?_, ?_, ?_, ?_⟩
  · intro a tr tres hts hth hst
    exact auth_init_wrong_stage hts hth hst tr tres
  · intro a r hst
    exact account_management_wrong_stage hst
  · intro a r hst
    exact open_session_wrong_stage hst
  · intro a r hst
    exact close_session_wrong_stage hst
  · intro a now r hst
    exact login_wrong_stage hst
  · intro a r hst
    exact logout_wrong_stage hst
  · intro a rs tr tres hst
    exact auth_continue_not_auth hst rs tr tres
  · intro a hreach hts rs tr tres
    have hinv := reachable_stageInv hreach
    have hne : a.state.stage ≠ .AUTH := by
      intro heq
      have := (hinv.2 heq).1
      rw [hts] at this
      cases this
    exact auth_continue_not_auth hne rs tr tres
  · intro a a' tr tres r h hne tr2 tres2
    obtain ⟨_, _, _, hcases⟩ := auth_init_ok_cases h
    rcases hcases with hc | hc | hc
    · exact absurd hc hne
    · exact auth_init_already (Or.inl hc.2.1) tr2 tres2
    · exact auth_init_already (Or.inl hc.2.1) tr2 tres2

/-- A masked password prompt. -/
def promptMsg : PamMessage := ⟨.PAM_PROMPT_ECHO_OFF, "Password: "⟩

/-- A trace whose first iteration receives a one-prompt conversation batch. -/
def trPrompt : List WaitIter := [⟨false, 0, some [promptMsg]⟩]

/-- Witness for C3: every conjunct applied at a concrete authenticator. -/
theorem C3_misuse_always_raises_witness :
    aLogin.auth_init [] (.success ⟨0⟩) = .error (.runtimeWrongStage .LOGIN .START) ∧
    aStart.account_management (.ok ()) = .error (.runtimeWrongStage .START .LOGIN) ∧
    aStart.open_session (.ok ()) = .error (.runtimeWrongStage .START .LOGIN) ∧
    aStart.close_session (.ok ()) = .error (.runtimeWrongStage .START .LOGOUT) ∧
    aStart.login 0 (.ok ()) = .error (.runtimeWrongStage .START .LOGIN) ∧
    aStart.logout (.ok ()) = .error (.runtimeWrongStage .START .LOGOUT) ∧
    aLogin.auth_continue [] trDone (.success ⟨0⟩) =
      .error (.runtimeNotInAuthStage .LOGIN) ∧
    aStart.auth_continue [] trDone (.success ⟨0⟩) =
      .error (.runtimeNotInAuthStage .START) ∧
    (∃ (a' : UserPamAuthenticator) (r : AuthenticatorResponse),
      aStart.auth_init trPrompt (.success ⟨0⟩) = .ok (some (a', r)) ∧
      a'.auth_init trDone (.success ⟨0⟩) = .error .runtimeAlreadyInProgress) := by
  obtain ⟨h1, h2, h3, h4, h5, h6, h7, h8, h9⟩ := C3_misuse_always_raises
  refine ⟨h1 aLogin [] (.success ⟨0⟩) rfl rfl (by decide),
    h2 aStart (.ok ()) (by decide),
    h3 aStart (.ok ()) (by decide),
    h4 aStart (.ok ()) (by decide),
    h5 aStart 0 (.ok ()) (by decide),
    h6 aStart (.ok ()) (by decide),
    h7 aLogin [] trDone (.success ⟨0⟩) (by decide),
    h8 aStart (Reachable.base "alice" "login" 10 none none none []) rfl []
      trDone (.success ⟨0⟩),
    ⟨_, _, rfl,
      h9 aStart _ trPrompt (.success ⟨0⟩) _ rfl (by decide) trDone (.success ⟨0⟩)⟩⟩

namespace UserPamAuthenticator

/-- `account_management` on backend success. -/
lemma account_management_ok {a : UserPamAuthenticator}
    (hst : a.state.stage = .LOGIN) (hctx : a.ctx.isSome = true) :
    a.account_management (.ok ()) =
      .ok (a, { stage := .AUTH, code := .PAM_SUCCESS, reason := .noReason }) := by
  unfold account_management
  rw [check_stage_of_stage hst,
    if_neg (by simp [Option.isNone_iff_eq_none]
               exact Option.isSome_iff_ne_none.mp hctx)]

/-- `account_management` on a structured backend error: returned, not raised. -/
lemma account_management_pamError {a : UserPamAuthenticator} {c : PAMCode} {m : String}
    (hst : a.state.stage = .LOGIN) (hctx : a.ctx.isSome = true) :
    a.account_management (.error (.pamError c m)) =
      .ok (a, { stage := .AUTH, code := c, reason := .text m }) := by
  unfold account_management
  rw [check_stage_of_stage hst,
    if_neg (by simp [Option.isNone_iff_eq_none]
               exact Option.isSome_iff_ne_none.mp hctx)]

/-- `open_session` on backend success. -/
lemma open_session_ok {a : UserPamAuthenticator}
    (hst : a.state.stage = .LOGIN) (hctx : a.ctx.isSome = true) :
    a.open_session (.ok ()) =
      .ok (a, { stage := .OPEN_SESSION, code := .PAM_SUCCESS, reason := .noReason }) := by
  unfold open_session
  rw [check_stage_of_stage hst,
    if_neg (by simp [Option.isNone_iff_eq_none]
               exact Option.isSome_iff_ne_none.mp hctx)]

/-- `open_session` on a structured backend error: returned, not raised. -/
lemma open_session_pamError {a : UserPamAuthenticator} {c : PAMCode} {m : String}
    (hst : a.state.stage = .LOGIN) (hctx : a.ctx.isSome = true) :
    a.open_session (.error (.pamError c m)) =
      .ok (a, { stage := .OPEN_SESSION, code := c, reason := .text m }) := by
  unfold open_session
  rw [check_stage_of_stage hst,
    if_neg (by simp [Option.isNone_iff_eq_none]
               exact Option.isSome_iff_ne_none.mp hctx)]

/-- `close_session` on backend success. -/
lemma close_session_ok {a : UserPamAuthenticator}
    (hst : a.state.stage = .LOGOUT) (hctx : a.ctx.isSome = true) :
    a.close_session (.ok ()) =
      .ok (a, { stage := .CLOSE_SESSION, code := .PAM_SUCCESS, reason := .noReason }) := by
  unfold close_session
  rw [check_stage_of_stage hst,
    if_neg (by simp [Option.isNone_iff_eq_none]
               exact Option.isSome_iff_ne_none.mp hctx)]

/-- `close_session` on a structured backend error: returned, not raised. -/
lemma close_session_pamError {a : UserPamAuthenticator} {c : PAMCode} {m : String}
    (hst : a.state.stage = .LOGOUT) (hctx : a.ctx.isSome = true) :
    a.close_session (.error (.pamError c m)) =
      .ok (a, { stage := .CLOSE_SESSION, code := c, reason := .text m }) := by
  unfold close_session
  rw [check_stage_of_stage hst,
    if_neg (by simp [Option.isNone_iff_eq_none]
               exact Option.isSome_iff_ne_none.mp hctx)]

end UserPamAuthenticator

open UserPamAuthenticator in
/-- C4: backend outcome errors (structured `PAMError`s: bad credentials,
unknown user, expired token, permission denied, ...) are never raised from
`account_management`, `open_session`, `close_session`, `auth_init` or
`auth_continue`; each is returned as a `Response` carrying the backend's code
and reason. -/
theorem C4_backend_errors_returned :
    (∀ (a : UserPamAuthenticator) (c : PAMCode) (m : String),
      a.state.stage = .LOGIN → a.ctx.isSome = true →
      a.account_management (.error (.pamError c m)) =
        .ok (a, { stage := .AUTH, code := c, reason := .text m })) ∧
    (∀ (a : UserPamAuthenticator) (c : PAMCode) (m : String),
      a.state.stage = .LOGIN → a.ctx.isSome = true →
      a.open_session (.error (.pamError c m)) =
        .ok (a, { stage := .OPEN_SESSION, code := c, reason := .text m })) ∧
    (∀ (a : UserPamAuthenticator) (c : PAMCode) (m : String),
      a.state.stage = .LOGOUT → a.ctx.isSome = true →
      a.close_session (.error (.pamError c m)) =
        .ok (a, { stage := .CLOSE_SESSION, code := c, reason := .text m })) ∧
    (∀ (a : UserPamAuthenticator) (tr : List WaitIter) (c : PAMCode) (m : String),
      a.state.stage = .START → a.thread_state = none → a.auth_thread = false →
      waitLoop a.authentication_timeout tr = .completed →
      ∃ a', a.auth_init tr (.failure (.pamError c m)) =
        .ok (some (a', { stage := .AUTH, code := c, reason := .text m }))) ∧
    (∀ (a : UserPamAuthenticator) (rs : List (Option String)) (tr : List WaitIter)
      (c : PAMCode) (m : String),
      a.state.stage = .AUTH → a.thread_state.isSome = true → a.auth_thread = true →
      waitLoop a.authentication_timeout tr = .completed →
      ∃ a', a.auth_continue rs tr (.failure (.pamError c m)) =
        .ok (some (a', { stage := .AUTH, code := c, reason := .text m }))) := by
  refine ⟨?_, ?_, ?_, ?_, ?_⟩
  · intro a c m hst hctx
    exact account_management_pamError hst hctx
  · intro a c m hst hctx
    exact open_session_pamError hst hctx
  · intro a c m hst hctx
    exact close_session_pamError hst hctx
  · intro a tr c m hst hts hth hw
    rw [auth_init_start hst hts hth, wait_completed_pamError]
    · exact ⟨_, rfl⟩
    · exact hw
  · intro a rs tr c m hst hts hth hw
    rw [auth_continue_push hst hts hth, wait_completed_pamError]
    · exact ⟨_, rfl⟩
    · exact hw

/-- Witness for C4: each conjunct at a concrete authenticator and a concrete
permission-denied backend error. -/
theorem C4_backend_errors_returned_witness :
    aLogin.account_management (.error (.pamError .PAM_PERM_DENIED "denied")) =
      .ok (aLogin, { stage := .AUTH, code := .PAM_PERM_DENIED, reason := .text "denied" }) ∧
    aLogin.open_session (.error (.pamError .PAM_PERM_DENIED "denied")) =
      .ok (aLogin,
        { stage := .OPEN_SESSION, code := .PAM_PERM_DENIED, reason := .text "denied" }) ∧
    aLogout.close_session (.error (.pamError .PAM_PERM_DENIED "denied")) =
      .ok (aLogout,
        { stage := .CLOSE_SESSION, code := .PAM_PERM_DENIED, reason := .text "denied" }) ∧
    (∃ a', aStart.auth_init trDone (.failure (.pamError .PAM_USER_UNKNOWN "who")) =
      .ok (some (a',
        { stage := .AUTH, code := .PAM_USER_UNKNOWN, reason := .text "who" }))) ∧
    (∃ a', aAuth.auth_continue [some "pw"] trDone
        (.failure (.pamError .PAM_AUTH_ERR "bad password")) =
      .ok (some (a',
        { stage := .AUTH, code := .PAM_AUTH_ERR, reason := .text "bad password" }))) := by
  obtain ⟨h1, h2, h3, h4, h5⟩ := C4_backend_errors_returned
  exact ⟨h1 aLogin .PAM_PERM_DENIED "denied" rfl rfl,
    h2 aLogin .PAM_PERM_DENIED "denied" rfl rfl,
    h3 aLogout .PAM_PERM_DENIED "denied" rfl rfl,
    h4 aStart trDone .PAM_USER_UNKNOWN "who" rfl rfl rfl rfl,
    h5 aAuth [some "pw"] trDone .PAM_AUTH_ERR "bad password" rfl rfl rfl rfl⟩

open UserPamAuthenticator in
/-- C5: an attempt whose polling loop exceeds the configured timeout (no
`auth_continue` delivered anything in time) returns the `PAM_SYSTEM_ERR`
timeout response, tears the attempt down, and leaves the stage reset to
`START`. -/
theorem C5_timeout_resets_to_start (a : UserPamAuthenticator) (tr : List WaitIter)
    (tres : ThreadResult)
    (hst : a.state.stage = .START) (hts : a.thread_state = none)
    (hth : a.auth_thread = false)
    (hw : waitLoop a.authentication_timeout tr = .timedOut) :
    ∃ a', a.auth_init tr tres =
        .ok (some (a',
          { stage := .AUTH
            code := .PAM_SYSTEM_ERR
            reason := timeoutReason a.authentication_timeout })) ∧
      a'.state.stage = .START ∧ a'.thread_state = none ∧ a'.auth_thread = false := by
  rw [auth_init_start hst hts hth, wait_timed_out]
  · exact ⟨_, rfl, rfl, rfl, rfl⟩
  · exact hw

/-- A trace whose first poll happens after the 10-second timeout expired. -/
def trLate : List WaitIter := [⟨false, 11, none⟩]

/-- Witness for C5: fresh authenticator (timeout 10), first loop iteration at
elapsed 11 seconds. -/
theorem C5_timeout_resets_to_start_witness :
    ∃ a', aStart.auth_init trLate (.success ⟨0⟩) =
        .ok (some (a',
          { stage := .AUTH
            code := .PAM_SYSTEM_ERR
            reason := UserPamAuthenticator.timeoutReason aStart.authentication_timeout })) ∧
      a'.state.stage = .START ∧ a'.thread_state = none ∧ a'.auth_thread = false :=
  C5_timeout_resets_to_start aStart trLate (.success ⟨0⟩) rfl rfl rfl (by decide)

/-- If the loop keeps polling (not done, queue empty, clock within bound) and
then reaches an iteration where the worker is still not done but the clock has
passed the timeout, the loop exits `timedOut` there. -/
lemma waitLoop_timedOut_of (timeout : ℚ) (pre : List WaitIter) (it : WaitIter)
    (rest : List WaitIter)
    (hpre : ∀ j ∈ pre, j.done = false ∧ j.poll = none ∧ ¬j.elapsed > timeout)
    (hdone : it.done = false) (hel : it.elapsed > timeout) :
    waitLoop timeout (pre ++ it :: rest) = .timedOut := by
  induction pre with
  | nil =>
      simp only [List.nil_append, waitLoop]
      rw [if_neg (by simp [hdone]), if_pos hel]
  | cons j js ih =>
      obtain ⟨hd, hp, he⟩ := hpre j (by simp)
      simp only [List.cons_append, waitLoop]
      rw [if_neg (by simp [hd]), if_neg he, hp]
      exact ih fun k hk => hpre k (List.mem_cons_of_mem _ hk)

open UserPamAuthenticator in
/-- C6 (amended): the polling bound is per call, not per attempt. Within a
single `auth_continue` (equally `auth_init`) call, whose clock restarts at the
call's own `start_time`, as soon as the loop reaches an iteration where the
worker is not done and the elapsed time since this call started exceeds the
configured timeout, the attempt is cancelled with the `PAM_SYSTEM_ERR` timeout
response and the stage resets to `START`. Across the calls of one attempt the
timeout is not cumulative (see the counterexample). -/
theorem C6_amended_per_call_timeout_bound (a : UserPamAuthenticator)
    (rs : List (Option String)) (pre : List WaitIter) (it : WaitIter)
    (rest : List WaitIter) (tres : ThreadResult)
    (hstage : a.state.stage = .AUTH) (hts : a.thread_state.isSome = true)
    (hth : a.auth_thread = true)
    (hpre : ∀ j ∈ pre, j.done = false ∧ j.poll = none ∧
      ¬j.elapsed > a.authentication_timeout)
    (hdone : it.done = false) (hel : it.elapsed > a.authentication_timeout) :
    ∃ a', a.auth_continue rs (pre ++ it :: rest) tres =
        .ok (some (a',
          { stage := .AUTH
            code := .PAM_SYSTEM_ERR
            reason := timeoutReason a.authentication_timeout })) ∧
      a'.state.stage = .START ∧ a'.thread_state = none := by
  rw [auth_continue_push hstage hts hth, wait_timed_out]
  · exact ⟨_, rfl, rfl, rfl⟩
  · exact waitLoop_timedOut_of a.authentication_timeout pre it rest hpre hdone hel

/-- Witness for the amended C6: mid-attempt authenticator, one in-time empty
poll and then an iteration at elapsed 12 > 10. -/
theorem C6_amended_per_call_timeout_bound_witness :
    ∃ a', aAuth.auth_continue [some "pw"] ([⟨false, 5, none⟩] ++ ⟨false, 12, none⟩ :: [])
        (.success ⟨0⟩) =
        .ok (some (a',
          { stage := .AUTH
            code := .PAM_SYSTEM_ERR
            reason := UserPamAuthenticator.timeoutReason aAuth.authentication_timeout })) ∧
      a'.state.stage = .START ∧ a'.thread_state = none :=
  C6_amended_per_call_timeout_bound aAuth [some "pw"] [⟨false, 5, none⟩] ⟨false, 12, none⟩
    [] (.success ⟨0⟩) rfl rfl rfl
    (by intro j hj
        simp only [List.mem_singleton] at hj
        subst hj
        refine ⟨rfl, rfl, ?_⟩
        norm_num [aAuth, aStart, mkUserPamAuthenticator])
    rfl (by norm_num [aAuth, aStart, mkUserPamAuthenticator])

/-- A call whose loop receives a prompt batch at elapsed 9 of a 10-second
timeout (so the call itself stays within bound and does not cancel). -/
def trNine : List WaitIter := [⟨false, 9, some [promptMsg]⟩]

/-- C6 (counterexample): the polling clock restarts at every call, so the
total orchestrator-side polling time of one attempt is not bounded by the
single configured timeout. Concretely, with the default 10-second timeout,
`auth_init` polls for 9 seconds and returns `CONV_AGAIN`, then `auth_continue`
polls for 9 more seconds and returns `CONV_AGAIN` again: 18 seconds of polling
within one attempt, no cancellation, stage still `AUTH`. -/
theorem C6_counterexample_total_polling_exceeds_timeout :
    ∃ (a1 a2 : UserPamAuthenticator) (r1 r2 : AuthenticatorResponse),
      aStart.auth_init trNine (.success ⟨0⟩) = .ok (some (a1, r1)) ∧
      a1.auth_continue [some "pw"] trNine (.success ⟨0⟩) = .ok (some (a2, r2)) ∧
      r1.code = .PAM_CONV_AGAIN ∧ r2.code = .PAM_CONV_AGAIN ∧
      a2.state.stage = .AUTH ∧ a2.thread_state.isSome = true ∧
      aStart.authentication_timeout = 10 ∧
      waitPollTime aStart.authentication_timeout trNine +
          waitPollTime aStart.authentication_timeout trNine = 18 ∧
      ¬(waitPollTime aStart.authentication_timeout trNine +
          waitPollTime aStart.authentication_timeout trNine ≤
        aStart.authentication_timeout) := by
  refine ⟨_, _, _, _, rfl, rfl, rfl, rfl, rfl, rfl, rfl, ?_, ?_⟩
  · norm_num [waitPollTime, trNine, aStart, mkUserPamAuthenticator]
  · norm_num [waitPollTime, trNine, aStart, mkUserPamAuthenticator]

open UserPamAuthenticator in
/-- C7: `end()` is total (never raises, by construction) and idempotent from
every stage: after any call the session state is a fresh `START` instance
keeping only the service name, the PAM context and bridge context are
released, and `end()` composed with `end()` equals a single `end()`. -/
theorem C7_end_idempotent (a : UserPamAuthenticator) :
    a.end_.state.stage = .START ∧
    a.end_.state = { service := a.state.service } ∧
    a.end_.ctx = none ∧ a.end_.thread_state = none ∧ a.end_.auth_thread = false ∧
    a.end_.end_ = a.end_ :=
  ⟨rfl, rfl, rfl, rfl, rfl, rfl⟩

namespace UserPamAuthenticator

/-- `login` when `open_session` succeeds: record the login time and move to
`LOGOUT`. -/
lemma login_open_ok {a : UserPamAuthenticator} {now : ℚ}
    (hst : a.state.stage = .LOGIN) (hctx : a.ctx.isSome = true) :
    a.login now (.ok ()) =
      .ok ({ a with state := { a.state with login_at := some now, stage := .LOGOUT } },
        { stage := .LOGIN, code := .PAM_SUCCESS, reason := .noReason }) := by
  unfold login
  rw [check_stage_of_stage hst, open_session_ok hst hctx]
  rfl

/-- `login` when `open_session` fails with a structured error: teardown and
return the failure unchanged. -/
lemma login_open_pamError {a : UserPamAuthenticator} {now : ℚ} {c : PAMCode}
    {m : String} (hst : a.state.stage = .LOGIN) (hctx : a.ctx.isSome = true)
    (hc : c ≠ .PAM_SUCCESS) :
    a.login now (.error (.pamError c m)) =
      .ok (a.end_, { stage := .OPEN_SESSION, code := c, reason := .text m }) := by
  unfold login
  rw [check_stage_of_stage hst, open_session_pamError hst hctx]
  dsimp only
  rw [if_pos hc]

/-- `logout` when `close_session` succeeds: close, then teardown. -/
lemma logout_close_ok {a : UserPamAuthenticator}
    (hst : a.state.stage = .LOGOUT) (hctx : a.ctx.isSome = true) :
    a.logout (.ok ()) =
      .ok (a.end_, { stage := .LOGOUT, code := .PAM_SUCCESS, reason := .noReason }) := by
  unfold logout
  rw [check_stage_of_stage hst, close_session_ok hst hctx]

/-- `logout` when `close_session` fails with a structured error: the failure
is reported but the teardown happens regardless. -/
lemma logout_close_pamError {a : UserPamAuthenticator} {c : PAMCode} {m : String}
    (hst : a.state.stage = .LOGOUT) (hctx : a.ctx.isSome = true) :
    a.logout (.error (.pamError c m)) =
      .ok (a.end_, { stage := .LOGOUT, code := c, reason := .text m }) := by
  unfold logout
  rw [check_stage_of_stage hst, close_session_pamError hst hctx]

end UserPamAuthenticator

open UserPamAuthenticator in
/-- C8: from stage `LOGIN`, a successful `login()` records the login
timestamp and moves to `LOGOUT`; the immediately following `logout()` (with
any structured close outcome) closes the session and resets the full session
state, so `login_at` is set between `login()` and `logout()` and unset on the
fresh state afterwards; if `open_session` fails inside `login()`, the session
is torn down and the failure returned without transitioning to `LOGOUT`. -/
theorem C8_login_then_logout (a : UserPamAuthenticator) (now : ℚ) (c : PAMCode)
    (m : String) (cr : Except PamException Unit)
    (hst : a.state.stage = .LOGIN) (hctx : a.ctx.isSome = true)
    (hc : c ≠ .PAM_SUCCESS)
    (hcr : cr = .ok () ∨ ∃ c2 m2, cr = .error (.pamError c2 m2)) :
    (∃ a1, a.login now (.ok ()) =
        .ok (a1, { stage := .LOGIN, code := .PAM_SUCCESS, reason := .noReason }) ∧
      a1.state.login_at = some now ∧ a1.state.stage = .LOGOUT ∧
      ∃ (a2 : UserPamAuthenticator) (r2 : AuthenticatorResponse),
        a1.logout cr = .ok (a2, r2) ∧ r2.stage = .LOGOUT ∧
        a2.state.login_at = none ∧ a2.state.stage = .START ∧
        a2.state = { service := a.state.service }) ∧
    (∃ a3, a.login now (.error (.pamError c m)) =
        .ok (a3, { stage := .OPEN_SESSION, code := c, reason := .text m }) ∧
      a3.state.stage = .START ∧ a3.state.login_at = none) := by
  constructor
  · refine ⟨_, login_open_ok hst hctx, rfl, rfl, ?_⟩
    rcases hcr with rfl | ⟨c2, m2, rfl⟩
    · exact ⟨_, _, logout_close_ok rfl hctx, rfl, rfl, rfl, rfl⟩
    · exact ⟨_, _, logout_close_pamError rfl hctx, rfl, rfl, rfl, rfl⟩
  · exact ⟨_, login_open_pamError hst hctx hc, rfl, rfl⟩

/-- Witness for C8: the authenticated session `aLogin`, login at time 123,
a permission-denied open failure on the failure branch, and a clean close. -/
theorem C8_login_then_logout_witness :
    (∃ a1, aLogin.login 123 (.ok ()) =
        .ok (a1, { stage := .LOGIN, code := .PAM_SUCCESS, reason := .noReason }) ∧
      a1.state.login_at = some 123 ∧ a1.state.stage = .LOGOUT ∧
      ∃ (a2 : UserPamAuthenticator) (r2 : AuthenticatorResponse),
        a1.logout (.ok ()) = .ok (a2, r2) ∧ r2.stage = .LOGOUT ∧
        a2.state.login_at = none ∧ a2.state.stage = .START ∧
        a2.state = { service := aLogin.state.service }) ∧
    (∃ a3, aLogin.login 123 (.error (.pamError .PAM_PERM_DENIED "denied")) =
        .ok (a3,
          { stage := .OPEN_SESSION, code := .PAM_PERM_DENIED, reason := .text "denied" }) ∧
      a3.state.stage = .START ∧ a3.state.login_at = none) :=
  C8_login_then_logout aLogin 123 .PAM_PERM_DENIED "denied" (.ok ()) rfl rfl
    (by decide) (Or.inl rfl)

/-- C9 (counterexample): the orchestrator does not enforce the batch-length
contract. Concretely: `auth_init` returns `CONV_AGAIN` with a one-prompt
batch, then `auth_continue []` forwards an empty response batch into the
bridge (visible on the input queue) and returns without any error, although
0 ≠ 1. -/
theorem C9_counterexample_length_not_enforced :
    ∃ (a1 a2 : UserPamAuthenticator) (r1 r2 : AuthenticatorResponse)
      (ts1 ts2 : ConversationThreadState),
      aStart.auth_init trPrompt (.success ⟨0⟩) = .ok (some (a1, r1)) ∧
      r1.code = .PAM_CONV_AGAIN ∧
      a1.thread_state = some ts1 ∧ ts1.last_conv_messages = some [promptMsg] ∧
      a1.auth_continue [] trPrompt (.success ⟨0⟩) = .ok (some (a2, r2)) ∧
      r2.code = .PAM_CONV_AGAIN ∧
      a2.thread_state = some ts2 ∧ ts2.input_queue = [[]] ∧
      ([] : List (Option String)).length ≠ ([promptMsg]).length := by
  refine ⟨_, _, _, _, _, _, rfl, rfl, rfl, rfl, rfl, rfl, rfl, rfl, ?_⟩
  decide

open UserPamAuthenticator in
/-- C9 (amended): `auth_continue` forwards the caller's response batch into
the bridge verbatim and unvalidated, whatever its length; the length-match
contract belongs to the caller and the backend, the bridge only forwards. -/
theorem C9_amended_responses_forwarded_verbatim (a : UserPamAuthenticator)
    (rs : List (Option String)) (tr : List WaitIter) (tres : ThreadResult)
    (ts : ConversationThreadState) (msgs : List PamMessage)
    (hstage : a.state.stage = .AUTH) (hts : a.thread_state = some ts)
    (hth : a.auth_thread = true)
    (hw : waitLoop a.authentication_timeout tr = .convAgain msgs) :
    ∃ (a' : UserPamAuthenticator) (r : AuthenticatorResponse)
      (ts' : ConversationThreadState),
      a.auth_continue rs tr tres = .ok (some (a', r)) ∧
      a'.thread_state = some ts' ∧
      ts'.input_queue = ts.input_queue ++ [rs] := by
  rw [auth_continue_push hstage (by rw [hts]; rfl) hth, wait_conv_again]
  · refine ⟨_, _,
      { ts with input_queue := ts.input_queue ++ [rs], last_conv_messages := some msgs },
      rfl, ?_, rfl⟩
    simp only [responsesPushed, hts, Option.map_some']
    rfl
  · exact hw

/-- Witness for the amended C9: a mid-attempt authenticator forwards an empty
batch verbatim. -/
theorem C9_amended_responses_forwarded_verbatim_witness :
    ∃ (a' : UserPamAuthenticator) (r : AuthenticatorResponse)
      (ts' : ConversationThreadState),
      aAuth.auth_continue [] trPrompt (.success ⟨0⟩) = .ok (some (a', r)) ∧
      a'.thread_state = some ts' ∧
      ts'.input_queue = ({ } : ConversationThreadState).input_queue ++ [[]] :=
  C9_amended_responses_forwarded_verbatim aAuth [] trPrompt (.success ⟨0⟩)
    { } [promptMsg] rfl rfl rfl rfl

open UserPamAuthenticator in
/-- C10: `SimpleAuthenticator.auth_init` called in stage `START` (with the
context created and env set successfully) clears the stored password before
returning, on the success path and on every failure path of the backend
`authenticate` call (the `finally` clause). -/
theorem C10_simple_auth_clears_password (s : SimpleAuthenticator) (ctx : PamContext)
    (authRes : Except PamException Unit) (hst : s.state.stage = .START) :
    ∃ (s' : SimpleAuthenticator) (r : AuthenticatorResponse),
      s.auth_init (.ok ctx) (.ok ()) authRes = .ok (s', r) ∧ s'.password = none := by
  unfold SimpleAuthenticator.auth_init
  rw [check_stage_of_stage hst, ite_self]
  rcases authRes with e | u
  · rcases e with ⟨c, m⟩ | m
    · exact ⟨_, _, rfl, rfl⟩
    · exact ⟨_, _, rfl, rfl⟩
  · exact ⟨_, _, rfl, rfl⟩

/-- A `SimpleAuthenticator` holding a plaintext password. -/
def sSimple : SimpleAuthenticator :=
  { toUserPamAuthenticator := aStart, password := some "hunter2" }

/-- Witness for C10 on a failing `authenticate`. -/
theorem C10_simple_auth_clears_password_witness :
    ∃ (s' : SimpleAuthenticator) (r : AuthenticatorResponse),
      sSimple.auth_init (.ok ⟨0⟩) (.ok ())
          (.error (.pamError .PAM_AUTH_ERR "Authentication failure")) = .ok (s', r) ∧
      s'.password = none :=
  C10_simple_auth_clears_password sSimple ⟨0⟩
    (.error (.pamError .PAM_AUTH_ERR "Authentication failure")) rfl
